import Mathlib

/-!
# Tray application of the fptn VPN client: connection life cycle

A shallow embedding of `src/fptn-client/gui/tray/tray.cpp`.

* The members of `TrayApp` that the handlers read or write become the fields of the
  structure `TrayApp`.  A pointer member that the code tests against null is an `Option`.
  `trayIcon_`, `trayMenu_` and `connectMenu_` are created in the constructor's initialiser
  list, never reassigned and dereferenced without a test, so they are plain values.
* Calls into collaborators whose code is not in this file (`WebSocketClient`, `IPTables`,
  `TunInterface`, `VpnClient`, `SpeedWidget::updateSpeed`, `QMessageBox`, the sleep) are
  recorded, in program order, in the ghost field `trace_`, together with every assignment to
  `connectionState_` and every emitted signal.
* The four signals are connected to their slots in the constructor (lines 131-134) between
  objects of the same thread, so `emit` runs the slot before it returns; the embedding calls
  the slot at the place of the `emit`.
* Values produced by collaborators are arguments of the handler that asks for them: the result
  of `WebSocketClient::login`, and the two rates of `VpnClient`.  Where C++ leaves the order
  of two calls open, the order taken is an argument as well.
-/

namespace Fptn

/-! ## Data model -/

/-- The enum `ConnectionState` used by `TrayApp::connectionState_`. -/
inductive ConnectionState
  | None
  | Connecting
  | Connected
  | Disconnecting
  deriving DecidableEq, Repr

/-- One configured server, with the four fields the handlers read. -/
structure ServerConnectionInformation where
  address : String
  port : Int
  username : String
  password : String
  deriving DecidableEq, Repr

/-- The part of `SettingsModel` read by the tray: `servers()`, `gatewayIp()`,
`networkInterface()`. -/
structure SettingsModel where
  servers : List ServerConnectionInformation
  gatewayIp : String
  networkInterface : String
  deriving DecidableEq, Repr

/-- Text of a menu action: a literal, or the pattern `"Disconnect: %1:%2"` filled with an
address and a port. -/
inductive ActionText
  | literal (s : String)
  | disconnectFrom (address : String) (port : Int)
  deriving DecidableEq, Repr

/-- A `QAction`: its text and the two flags the tray sets.  A new action is visible and
enabled. -/
structure QAction where
  text : ActionText
  visible : Bool
  enabled : Bool
  deriving DecidableEq, Repr

/-- The speed widget, as far as the tray touches it directly. -/
structure SpeedWidget where
  visible : Bool
  deriving DecidableEq, Repr

/-- Arguments of the constructor of `fptn::http::WebSocketClient` (websocket_client.h,
lines 20-26). -/
structure WebSocketClient where
  vpnServerIP : String
  vpnServerPort : Int
  tunInterfaceAddress : String
  useSsl : Bool
  deriving DecidableEq, Repr

/-- Arguments of the constructor of `fptn::system::IPTables`, in call order and named after
the variables passed at the call site (tray.cpp, lines 362-368). -/
structure IPTables where
  networkInterface : String
  tunInterfaceName : String
  vpnServerIp : String
  gatewayIP : String
  tunInterfaceAddress : String
  deriving DecidableEq, Repr

/-- Arguments of the constructor of `TunInterface` (tray.cpp, lines 369-371). -/
structure TunInterface where
  name : String
  address : String
  netmask : Nat
  deriving DecidableEq, Repr

/-- A `VpnClient` owns the transport and the virtual interface it was built from. -/
structure VpnClient where
  webSocketClient : WebSocketClient
  virtualNetworkInterface : TunInterface
  deriving DecidableEq, Repr

/-- The four signals of `TrayApp`. -/
inductive Signal
  | defaultState
  | connecting
  | connected
  | disconnecting
  deriving DecidableEq, Repr

/-- Observable steps of a handler, in program order. -/
inductive Effect
  | newWebSocketClient (c : WebSocketClient)
  | webSocketLogin (username password : String) (result : Bool)
  | messageBoxCritical (title text : String)
  | newIPTables (t : IPTables)
  | newTunInterface (t : TunInterface)
  | newVpnClient (c : VpnClient)
  | vpnClientStart
  | vpnClientStop
  | sleepSeconds (n : Nat)
  | ipTablesApply
  | ipTablesClean
  | assignConnectionState (c : ConnectionState)
  | emitSignal (sig : Signal)
  | getReceiveRate
  | getSendRate
  | updateSpeed (receiveRate sendRate : Nat)
  deriving DecidableEq, Repr

/-- The actions that can sit in the tray menu, named after the member that holds them. -/
inductive MenuEntry
  | separator
  | connectMenu
  | connectingAction
  | disconnectAction
  | speedWidgetAction
  | settingsAction
  | quitAction
  deriving DecidableEq, Repr

/-- The state of a `TrayApp` object. -/
structure TrayApp where
  trayIcon_ : String
  trayMenu_ : List MenuEntry
  connectMenu_ : List ServerConnectionInformation
  speedWidget_ : Option SpeedWidget
  settingsAction_ : Option QAction
  connectingAction_ : Option QAction
  disconnectAction_ : Option QAction
  speedWidgetAction_ : Option QAction
  serverModel_ : SettingsModel
  selectedServer_ : ServerConnectionInformation
  connectionState_ : ConnectionState
  vpnClient_ : Option VpnClient
  ipTables_ : Option IPTables
  activeIconPath_ : String
  inactiveIconPath_ : String
  trace_ : List Effect
  deriving DecidableEq, Repr

/-! ## Qt helpers -/

/-- The call `QAction::setVisible`. -/
def QAction.setVisible (v : Bool) (a : QAction) : QAction := { a with visible := v }

/-- The call `QAction::setEnabled`. -/
def QAction.setEnabled (v : Bool) (a : QAction) : QAction := { a with enabled := v }

/-- The call `QAction::setText`. -/
def QAction.setText (t : ActionText) (a : QAction) : QAction := { a with text := t }

/-- The call `SpeedWidget::setVisible`. -/
def SpeedWidget.setVisible (v : Bool) (w : SpeedWidget) : SpeedWidget := { w with visible := v }

/-- The call `QWidget::removeAction`: every occurrence of the action leaves the list. -/
def removeAction (a : MenuEntry) (l : List MenuEntry) : List MenuEntry :=
  l.filter (fun x => decide (x ≠ a))

/-- Insertion in front of the first occurrence of `before`, at the end when there is none. -/
def insertBefore (before a : MenuEntry) : List MenuEntry → List MenuEntry
  | [] => [a]
  | x :: xs => if x = before then a :: x :: xs else x :: insertBefore before a xs

/-- The call `QWidget::insertAction(before, action)`: an action already in the list is removed
first; a null `before`, or one that is not in the list, appends. -/
def insertAction (before : Option MenuEntry) (a : MenuEntry) (l : List MenuEntry) :
    List MenuEntry :=
  match before with
  | none => removeAction a l ++ [a]
  | some b => insertBefore b a (removeAction a l)

/-- The pointer `settingsAction_` as the `before` argument of an insertion. -/
def beforeSettings (s : TrayApp) : Option MenuEntry :=
  if s.settingsAction_.isSome then some MenuEntry.settingsAction else none

/-- Appends one effect to the trace. -/
def record (e : Effect) (s : TrayApp) : TrayApp := { s with trace_ := s.trace_ ++ [e] }

/-- The assignment `connectionState_ = c`. -/
def assignConnectionState (c : ConnectionState) (s : TrayApp) : TrayApp :=
  record (Effect.assignConnectionState c) { s with connectionState_ := c }

/-! ## The handlers -/

/-- The method `TrayApp::updateTrayMenu` (tray.cpp, lines 162-267). -/
def updateTrayMenu (s : TrayApp) : TrayApp :=
  let s := { s with connectMenu_ := [] }
  let s := { s with trayMenu_ := removeAction MenuEntry.connectMenu s.trayMenu_ }
  match s.connectionState_ with
  | ConnectionState.None =>
    let s := { s with trayIcon_ := s.inactiveIconPath_ }
    let s := { s with connectMenu_ := s.connectMenu_ ++ s.serverModel_.servers }
    let s := { s with trayMenu_ := insertAction (beforeSettings s) MenuEntry.connectMenu s.trayMenu_ }
    let s := { s with disconnectAction_ := s.disconnectAction_.map (QAction.setVisible false) }
    let s := { s with speedWidgetAction_ := s.speedWidgetAction_.map (QAction.setVisible false) }
    let s := { s with settingsAction_ := s.settingsAction_.map (QAction.setEnabled true) }
    let s := { s with connectingAction_ := s.connectingAction_.map (QAction.setVisible false) }
    { s with speedWidget_ := s.speedWidget_.map (SpeedWidget.setVisible false) }
  | ConnectionState.Connecting =>
    let s := { s with trayIcon_ := s.inactiveIconPath_ }
    let s :=
      match s.connectingAction_ with
      | none =>
        { s with
          connectingAction_ := some ⟨ActionText.literal "Connecting...", true, true⟩
          trayMenu_ := insertAction (beforeSettings s) MenuEntry.connectingAction s.trayMenu_ }
      | some _ => s
    let s := { s with disconnectAction_ := s.disconnectAction_.map (QAction.setVisible false) }
    let s := { s with speedWidgetAction_ := s.speedWidgetAction_.map (QAction.setVisible false) }
    { s with settingsAction_ := s.settingsAction_.map (QAction.setEnabled false) }
  | ConnectionState.Connected =>
    let s := { s with trayIcon_ := s.activeIconPath_ }
    let s :=
      match s.disconnectAction_ with
      | none =>
        { s with
          disconnectAction_ := some ⟨ActionText.literal "", true, true⟩
          trayMenu_ := insertAction (beforeSettings s) MenuEntry.disconnectAction s.trayMenu_ }
      | some _ => s
    let s :=
      { s with
        disconnectAction_ := s.disconnectAction_.map (fun a =>
          QAction.setVisible true
            (QAction.setText
              (ActionText.disconnectFrom s.selectedServer_.address s.selectedServer_.port) a)) }
    let s := { s with connectingAction_ := s.connectingAction_.map (QAction.setVisible false) }
    let s :=
      match s.speedWidgetAction_ with
      | none =>
        { s with
          speedWidgetAction_ := some ⟨ActionText.literal "", true, true⟩
          trayMenu_ := insertAction (beforeSettings s) MenuEntry.speedWidgetAction s.trayMenu_ }
      | some _ => s
    let s := { s with speedWidget_ := s.speedWidget_.map (SpeedWidget.setVisible true) }
    let s := { s with settingsAction_ := s.settingsAction_.map (QAction.setEnabled false) }
    { s with speedWidgetAction_ := s.speedWidgetAction_.map (QAction.setVisible true) }
  | ConnectionState.Disconnecting =>
    let s := { s with trayIcon_ := s.inactiveIconPath_ }
    let s := { s with disconnectAction_ := s.disconnectAction_.map (QAction.setVisible false) }
    let s :=
      match s.connectingAction_ with
      | none =>
        { s with
          connectingAction_ := some ⟨ActionText.literal "Disconnecting... ", true, true⟩
          trayMenu_ := insertAction (beforeSettings s) MenuEntry.connectingAction s.trayMenu_ }
      | some a =>
        { s with
          connectingAction_ := some (QAction.setText (ActionText.literal "Disconnecting... ") a) }
    let s := { s with connectingAction_ := s.connectingAction_.map (QAction.setVisible true) }
    let s := { s with speedWidgetAction_ := s.speedWidgetAction_.map (QAction.setVisible false) }
    { s with settingsAction_ := s.settingsAction_.map (QAction.setEnabled false) }

/-- The common opening of the three teardown handlers: stop and drop the client if there is
one, then clean and drop the routing helper if there is one. -/
def releaseTunnel (s : TrayApp) : TrayApp :=
  let s :=
    match s.vpnClient_ with
    | some _ => { record Effect.vpnClientStop s with vpnClient_ := none }
    | none => s
  match s.ipTables_ with
  | some _ => { record Effect.ipTablesClean s with ipTables_ := none }
  | none => s

/-- The method `TrayApp::onDisconnectFromServer` (lines 277-289). -/
def onDisconnectFromServer (s : TrayApp) : TrayApp :=
  let s := releaseTunnel s
  let s := assignConnectionState ConnectionState.None s
  updateTrayMenu s

/-- The method `TrayApp::handleDefaultState` (lines 304-316). -/
def handleDefaultState (s : TrayApp) : TrayApp :=
  let s := releaseTunnel s
  updateTrayMenu s

/-- The method `TrayApp::handleConnected` (lines 385-389). -/
def handleConnected (s : TrayApp) : TrayApp :=
  let s := assignConnectionState ConnectionState.Connected s
  updateTrayMenu s

/-- The method `TrayApp::handleConnecting` (lines 318-383); `loginStatus` is what
`WebSocketClient::login` returns. -/
def handleConnecting (loginStatus : Bool) (s : TrayApp) : TrayApp :=
  let s := updateTrayMenu s
  let s := { s with trayIcon_ := s.inactiveIconPath_ }
  let tunInterfaceAddress := "10.0.1.1"
  let tunInterfaceName := "tun0"
  let gatewayIP :=
    if s.serverModel_.gatewayIp = "auto" then "" else s.serverModel_.gatewayIp
  let networkInterface :=
    if s.serverModel_.networkInterface = "auto" then "" else s.serverModel_.networkInterface
  let webSocketClient : WebSocketClient :=
    ⟨s.selectedServer_.address, s.selectedServer_.port, tunInterfaceAddress, true⟩
  let s := record (Effect.newWebSocketClient webSocketClient) s
  let s :=
    record (Effect.webSocketLogin s.selectedServer_.username s.selectedServer_.password
      loginStatus) s
  if !loginStatus then
    let s :=
      record (Effect.messageBoxCritical "Connection Error"
        "Failed to connect to the server. Please check your credentials and try again.") s
    let s := assignConnectionState ConnectionState.None s
    updateTrayMenu s
  else
    let ipTables : IPTables :=
      ⟨networkInterface, tunInterfaceName, s.selectedServer_.address, gatewayIP,
        tunInterfaceAddress⟩
    let s := { record (Effect.newIPTables ipTables) s with ipTables_ := some ipTables }
    let virtualNetworkInterface : TunInterface := ⟨tunInterfaceName, tunInterfaceAddress, 30⟩
    let s := record (Effect.newTunInterface virtualNetworkInterface) s
    let vpnClient : VpnClient := ⟨webSocketClient, virtualNetworkInterface⟩
    let s := { record (Effect.newVpnClient vpnClient) s with vpnClient_ := some vpnClient }
    let s := record Effect.vpnClientStart s
    let s := record (Effect.sleepSeconds 2) s
    let s := record Effect.ipTablesApply s
    let s := assignConnectionState ConnectionState.Connected s
    let s := updateTrayMenu s
    let s := record (Effect.emitSignal Signal.connected) s
    handleConnected s

/-- Lines 271-273 of `TrayApp::onConnectToServer`: the state in which `updateTrayMenu` returns,
before the signal `connecting` is emitted. -/
def onConnectToServerMenu (server : ServerConnectionInformation) (s : TrayApp) : TrayApp :=
  let s := { s with selectedServer_ := server }
  let s := assignConnectionState ConnectionState.Connecting s
  updateTrayMenu s

/-- The method `TrayApp::onConnectToServer` (lines 269-275); `loginStatus` is what
`WebSocketClient::login` returns inside the slot run by `emit connecting()`. -/
def onConnectToServer (loginStatus : Bool) (server : ServerConnectionInformation)
    (s : TrayApp) : TrayApp :=
  let s := onConnectToServerMenu server s
  let s := record (Effect.emitSignal Signal.connecting) s
  handleConnecting loginStatus s

/-- The method `TrayApp::handleDisconnecting` (lines 391-404). -/
def handleDisconnecting (s : TrayApp) : TrayApp :=
  let s := releaseTunnel s
  let s := assignConnectionState ConnectionState.None s
  let s := updateTrayMenu s
  let s := record (Effect.emitSignal Signal.defaultState) s
  handleDefaultState s

/-- The method `TrayApp::updateSpeedWidget` (lines 406-411); `receiveRate` and `sendRate` are
what the two getters of `VpnClient` return when they are called.  Both getter calls are
arguments of the one call `updateSpeed(...)` on line 409, and C++ does not fix the order in
which the arguments of a call are evaluated: `sendRateFirst` is the order the compiler took,
`true` when `getSendRate` is called before `getReceiveRate`.  Either way both calls precede
the call of `updateSpeed`. -/
def updateSpeedWidget (sendRateFirst : Bool) (receiveRate sendRate : Nat) (s : TrayApp) :
    TrayApp :=
  if s.vpnClient_.isSome && s.speedWidget_.isSome
      && decide (s.connectionState_ = ConnectionState.Connected) then
    let s :=
      if sendRateFirst then record Effect.getReceiveRate (record Effect.getSendRate s)
      else record Effect.getSendRate (record Effect.getReceiveRate s)
    record (Effect.updateSpeed receiveRate sendRate) s
  else s

/-! ## Construction and a concrete configuration -/

/-- Modelled from the spec: the default member initialisers of `tray.h`, which is not among the
sources.  The connection state starts as `Disconnected` (`ConnectionState::None`), no tunnel
client and no routing helper exist, and the action pointers that `updateTrayMenu` creates on
demand are null. -/
def headerDefaults (serverModel : SettingsModel) : TrayApp :=
  { trayIcon_ := ""
    trayMenu_ := []
    connectMenu_ := []
    speedWidget_ := none
    settingsAction_ := none
    connectingAction_ := none
    disconnectAction_ := none
    speedWidgetAction_ := none
    serverModel_ := serverModel
    selectedServer_ := ⟨"", 0, "", ""⟩
    connectionState_ := ConnectionState.None
    vpnClient_ := none
    ipTables_ := none
    activeIconPath_ := ""
    inactiveIconPath_ := ""
    trace_ := [] }

/-- The constructor `TrayApp::TrayApp` (lines 39-155); the two icon paths are what the
platform branch selects. -/
def TrayApp.new (serverModel : SettingsModel) (activeIconPath inactiveIconPath : String) :
    TrayApp :=
  let s := headerDefaults serverModel
  let s := { s with speedWidget_ := some ⟨false⟩ }
  let s := { s with activeIconPath_ := activeIconPath, inactiveIconPath_ := inactiveIconPath }
  let s := { s with settingsAction_ := some ⟨ActionText.literal "Settings", true, true⟩ }
  let s :=
    { s with
      trayMenu_ := [MenuEntry.separator, MenuEntry.settingsAction, MenuEntry.separator,
        MenuEntry.quitAction] }
  updateTrayMenu s

/-- A server entry used in the concrete runs below. -/
def sampleServer : ServerConnectionInformation := ⟨"203.0.113.7", 443, "alice", "secret"⟩

/-- A settings model with one server, an automatic gateway and a fixed interface. -/
def sampleModel : SettingsModel := ⟨[sampleServer], "auto", "eth0"⟩

/-- The tray right after construction with `sampleModel`. -/
def sampleApp : TrayApp :=
  TrayApp.new sampleModel ":/icons/dark/active.ico" ":/icons/dark/inactive.ico"

/-- The tray after a successful connect request to `sampleServer`. -/
def sampleConnected : TrayApp := onConnectToServer true sampleServer sampleApp

/-! ## Observations on runs -/

/-- The effects a handler added when it took the tray from `before` to `after`. -/
def effectsSince (before after : TrayApp) : List Effect :=
  after.trace_.drop before.trace_.length

/-- The values assigned to `connectionState_` along a trace, in order. -/
def assignedStates : List Effect → List ConnectionState
  | [] => []
  | Effect.assignConnectionState c :: es => c :: assignedStates es
  | _ :: es => assignedStates es

/-- The values `connectionState_` takes during a handler: the one it starts with, then each
assigned value. -/
def statesTaken (before after : TrayApp) : List ConnectionState :=
  before.connectionState_ :: assignedStates (effectsSince before after)

/-- In the trace `tr`, every occurrence of `b` has an occurrence of `a` somewhere before it. -/
def OnlyAfter (a b : Effect) (tr : List Effect) : Prop :=
  ∀ pre post, tr = pre ++ b :: post → a ∈ pre

/-- A client exists exactly when a routing helper exists, exactly when the state is
`Connected`. -/
def ResourceInvariant (s : TrayApp) : Prop :=
  (s.vpnClient_.isSome = true ↔ s.ipTables_.isSome = true) ∧
    (s.ipTables_.isSome = true ↔ s.connectionState_ = ConnectionState.Connected)

instance (s : TrayApp) : Decidable (ResourceInvariant s) := by
  unfold ResourceInvariant; infer_instance

/-- The handler invocations a run is made of.  A connect request carries the chosen server and
the outcome of the login performed by the slot it triggers; the timer handler carries the two
rates the client would report and the order in which the compiler reads them. -/
inductive Handler
  | onConnectToServer (server : ServerConnectionInformation) (loginStatus : Bool)
  | onDisconnectFromServer
  | handleDisconnecting
  | handleConnected
  | updateSpeedWidget (sendRateFirst : Bool) (receiveRate sendRate : Nat)
  | updateTrayMenu
  deriving DecidableEq, Repr

/-- Runs one handler. -/
def runHandler : Handler → TrayApp → TrayApp
  | Handler.onConnectToServer server loginStatus, s => onConnectToServer loginStatus server s
  | Handler.onDisconnectFromServer, s => onDisconnectFromServer s
  | Handler.handleDisconnecting, s => handleDisconnecting s
  | Handler.handleConnected, s => handleConnected s
  | Handler.updateSpeedWidget o rx tx, s => updateSpeedWidget o rx tx s
  | Handler.updateTrayMenu, s => updateTrayMenu s

/-- Runs a sequence of handlers, first to last. -/
def runAll : List Handler → TrayApp → TrayApp
  | [], s => s
  | h :: hs, s => runAll hs (runHandler h s)

/-- Every connect request of the run is issued in state `None`. -/
def connectOnlyWhenNone : List Handler → TrayApp → Bool
  | [], _ => true
  | h :: hs, s =>
    (match h with
      | Handler.onConnectToServer _ _ => decide (s.connectionState_ = ConnectionState.None)
      | _ => true) && connectOnlyWhenNone hs (runHandler h s)

/-- Every stand-alone run of the slot `handleConnected` happens in state `Connected`. -/
def connectedSlotOnlyWhenConnected : List Handler → TrayApp → Bool
  | [], _ => true
  | h :: hs, s =>
    (match h with
      | Handler.handleConnected => decide (s.connectionState_ = ConnectionState.Connected)
      | _ => true) && connectedSlotOnlyWhenConnected hs (runHandler h s)

/-! ## Auxiliary definitions for the proofs -/

/-- What the shared teardown block adds to the trace. -/
def releaseEffects (s : TrayApp) : List Effect :=
  (if s.vpnClient_.isSome then [Effect.vpnClientStop] else []) ++
    (if s.ipTables_.isSome then [Effect.ipTablesClean] else [])

/-- The routing helper built by a successful `handleConnecting`. -/
def connectedIPTables (s : TrayApp) : IPTables :=
  ⟨if s.serverModel_.networkInterface = "auto" then "" else s.serverModel_.networkInterface,
    "tun0", s.selectedServer_.address,
    if s.serverModel_.gatewayIp = "auto" then "" else s.serverModel_.gatewayIp, "10.0.1.1"⟩

/-- The client built by a successful `handleConnecting`. -/
def connectedVpnClient (s : TrayApp) : VpnClient :=
  ⟨⟨s.selectedServer_.address, s.selectedServer_.port, "10.0.1.1", true⟩,
    ⟨"tun0", "10.0.1.1", 30⟩⟩

/-- Scans a trace: `false` when `b` is met before any `a`. -/
def firstIsNot (a b : Effect) : List Effect → Bool
  | [] => true
  | x :: xs => if x = b then false else if x = a then true else firstIsNot a b xs

/-- The two getter calls of `updateSpeedWidget`, in the order the compiler took. -/
def rateReads (sendRateFirst : Bool) : List Effect :=
  if sendRateFirst then [Effect.getSendRate, Effect.getReceiveRate]
  else [Effect.getReceiveRate, Effect.getSendRate]

/-- A run that connects, polls the rates, re-runs the connected slot, disconnects, fails a
login and tears down once more. -/
def sampleRun : List Handler :=
  [Handler.onConnectToServer sampleServer true, Handler.updateSpeedWidget true 1200 300,
    Handler.handleConnected, Handler.updateTrayMenu, Handler.onDisconnectFromServer,
    Handler.onConnectToServer sampleServer false, Handler.handleDisconnecting]

/-! ## Frame lemmas -/

@[simp] theorem updateTrayMenu_connectionState (s : TrayApp) :
    (updateTrayMenu s).connectionState_ = s.connectionState_ := by
  rcases s with ⟨_, _, _, _, _, ca, da, swa, _, _, cs, _, _, _, _, _⟩
  cases cs <;> cases ca <;> cases da <;> cases swa <;> rfl

@[simp] theorem updateTrayMenu_vpnClient (s : TrayApp) :
    (updateTrayMenu s).vpnClient_ = s.vpnClient_ := by
  rcases s with ⟨_, _, _, _, _, ca, da, swa, _, _, cs, _, _, _, _, _⟩
  cases cs <;> cases ca <;> cases da <;> cases swa <;> rfl

@[simp] theorem updateTrayMenu_ipTables (s : TrayApp) :
    (updateTrayMenu s).ipTables_ = s.ipTables_ := by
  rcases s with ⟨_, _, _, _, _, ca, da, swa, _, _, cs, _, _, _, _, _⟩
  cases cs <;> cases ca <;> cases da <;> cases swa <;> rfl

@[simp] theorem updateTrayMenu_trace (s : TrayApp) :
    (updateTrayMenu s).trace_ = s.trace_ := by
  rcases s with ⟨_, _, _, _, _, ca, da, swa, _, _, cs, _, _, _, _, _⟩
  cases cs <;> cases ca <;> cases da <;> cases swa <;> rfl

@[simp] theorem updateTrayMenu_selectedServer (s : TrayApp) :
    (updateTrayMenu s).selectedServer_ = s.selectedServer_ := by
  rcases s with ⟨_, _, _, _, _, ca, da, swa, _, _, cs, _, _, _, _, _⟩
  cases cs <;> cases ca <;> cases da <;> cases swa <;> rfl

@[simp] theorem updateTrayMenu_serverModel (s : TrayApp) :
    (updateTrayMenu s).serverModel_ = s.serverModel_ := by
  rcases s with ⟨_, _, _, _, _, ca, da, swa, _, _, cs, _, _, _, _, _⟩
  cases cs <;> cases ca <;> cases da <;> cases swa <;> rfl

@[simp] theorem record_trace (e : Effect) (s : TrayApp) :
    (record e s).trace_ = s.trace_ ++ [e] := rfl

@[simp] theorem record_connectionState (e : Effect) (s : TrayApp) :
    (record e s).connectionState_ = s.connectionState_ := rfl

@[simp] theorem record_vpnClient (e : Effect) (s : TrayApp) :
    (record e s).vpnClient_ = s.vpnClient_ := rfl

@[simp] theorem record_ipTables (e : Effect) (s : TrayApp) :
    (record e s).ipTables_ = s.ipTables_ := rfl

@[simp] theorem record_selectedServer (e : Effect) (s : TrayApp) :
    (record e s).selectedServer_ = s.selectedServer_ := rfl

@[simp] theorem record_serverModel (e : Effect) (s : TrayApp) :
    (record e s).serverModel_ = s.serverModel_ := rfl

@[simp] theorem assignConnectionState_trace (c : ConnectionState) (s : TrayApp) :
    (assignConnectionState c s).trace_ = s.trace_ ++ [Effect.assignConnectionState c] := rfl

@[simp] theorem assignConnectionState_connectionState (c : ConnectionState) (s : TrayApp) :
    (assignConnectionState c s).connectionState_ = c := rfl

@[simp] theorem assignConnectionState_vpnClient (c : ConnectionState) (s : TrayApp) :
    (assignConnectionState c s).vpnClient_ = s.vpnClient_ := rfl

@[simp] theorem assignConnectionState_ipTables (c : ConnectionState) (s : TrayApp) :
    (assignConnectionState c s).ipTables_ = s.ipTables_ := rfl

@[simp] theorem assignConnectionState_selectedServer (c : ConnectionState) (s : TrayApp) :
    (assignConnectionState c s).selectedServer_ = s.selectedServer_ := rfl

@[simp] theorem assignConnectionState_serverModel (c : ConnectionState) (s : TrayApp) :
    (assignConnectionState c s).serverModel_ = s.serverModel_ := rfl

theorem effectsSince_of_trace {before after : TrayApp} {l : List Effect}
    (h : after.trace_ = before.trace_ ++ l) : effectsSince before after = l := by
  simp [effectsSince, h]

@[simp] theorem releaseTunnel_vpnClient (s : TrayApp) : (releaseTunnel s).vpnClient_ = none := by
  rcases s with ⟨_, _, _, _, _, _, _, _, _, _, _, vc, ipt, _, _, _⟩
  cases vc <;> cases ipt <;> rfl

@[simp] theorem releaseTunnel_ipTables (s : TrayApp) : (releaseTunnel s).ipTables_ = none := by
  rcases s with ⟨_, _, _, _, _, _, _, _, _, _, _, vc, ipt, _, _, _⟩
  cases vc <;> cases ipt <;> rfl

@[simp] theorem releaseTunnel_connectionState (s : TrayApp) :
    (releaseTunnel s).connectionState_ = s.connectionState_ := by
  rcases s with ⟨_, _, _, _, _, _, _, _, _, _, _, vc, ipt, _, _, _⟩
  cases vc <;> cases ipt <;> rfl

@[simp] theorem releaseTunnel_trace (s : TrayApp) :
    (releaseTunnel s).trace_ = s.trace_ ++ releaseEffects s := by
  rcases s with ⟨_, _, _, _, _, _, _, _, _, _, _, vc, ipt, _, _, _⟩
  cases vc <;> cases ipt <;> simp [releaseTunnel, releaseEffects, record]

theorem releaseEffects_of_absent (s : TrayApp) (hv : s.vpnClient_ = none)
    (hi : s.ipTables_ = none) : releaseEffects s = [] := by
  simp [releaseEffects, hv, hi]

/-! ## Traces of the handlers -/

theorem handleConnecting_false_trace (s : TrayApp) :
    (handleConnecting false s).trace_ = s.trace_ ++
      [Effect.newWebSocketClient
          ⟨s.selectedServer_.address, s.selectedServer_.port, "10.0.1.1", true⟩,
        Effect.webSocketLogin s.selectedServer_.username s.selectedServer_.password false,
        Effect.messageBoxCritical "Connection Error"
          "Failed to connect to the server. Please check your credentials and try again.",
        Effect.assignConnectionState ConnectionState.None] := by
  simp [handleConnecting]

theorem handleConnecting_true_trace (s : TrayApp) :
    (handleConnecting true s).trace_ = s.trace_ ++
      [Effect.newWebSocketClient
          ⟨s.selectedServer_.address, s.selectedServer_.port, "10.0.1.1", true⟩,
        Effect.webSocketLogin s.selectedServer_.username s.selectedServer_.password true,
        Effect.newIPTables (connectedIPTables s),
        Effect.newTunInterface ⟨"tun0", "10.0.1.1", 30⟩,
        Effect.newVpnClient (connectedVpnClient s),
        Effect.vpnClientStart,
        Effect.sleepSeconds 2,
        Effect.ipTablesApply,
        Effect.assignConnectionState ConnectionState.Connected,
        Effect.emitSignal Signal.connected,
        Effect.assignConnectionState ConnectionState.Connected] := by
  simp [handleConnecting, handleConnected, connectedIPTables, connectedVpnClient]

theorem handleConnecting_false_state (s : TrayApp) :
    (handleConnecting false s).connectionState_ = ConnectionState.None ∧
      (handleConnecting false s).vpnClient_ = s.vpnClient_ ∧
      (handleConnecting false s).ipTables_ = s.ipTables_ := by
  simp [handleConnecting]

theorem handleConnecting_true_state (s : TrayApp) :
    (handleConnecting true s).connectionState_ = ConnectionState.Connected ∧
      (handleConnecting true s).vpnClient_ = some (connectedVpnClient s) ∧
      (handleConnecting true s).ipTables_ = some (connectedIPTables s) := by
  simp [handleConnecting, handleConnected, connectedIPTables, connectedVpnClient]

theorem onDisconnectFromServer_trace (s : TrayApp) :
    (onDisconnectFromServer s).trace_ = s.trace_ ++
      (releaseEffects s ++ [Effect.assignConnectionState ConnectionState.None]) := by
  simp [onDisconnectFromServer]

theorem handleDefaultState_trace (s : TrayApp) :
    (handleDefaultState s).trace_ = s.trace_ ++ releaseEffects s := by
  simp [handleDefaultState]

theorem handleDisconnecting_trace (s : TrayApp) :
    (handleDisconnecting s).trace_ = s.trace_ ++
      (releaseEffects s ++ [Effect.assignConnectionState ConnectionState.None,
        Effect.emitSignal Signal.defaultState]) := by
  simp [handleDisconnecting, handleDefaultState, releaseEffects_of_absent]

theorem onlyAfter_of_firstIsNot (a b : Effect) (tr : List Effect)
    (h : firstIsNot a b tr = true) : OnlyAfter a b tr := by
  induction tr with
  | nil => intro pre post hp; simp at hp
  | cons x xs ih =>
    intro pre post hp
    by_cases hxb : x = b
    · simp [firstIsNot, hxb] at h
    · cases pre with
      | nil =>
        simp only [List.nil_append, List.cons.injEq] at hp
        exact absurd hp.1 hxb
      | cons y pre =>
        simp only [List.cons_append, List.cons.injEq] at hp
        obtain ⟨hxy, hxs⟩ := hp
        by_cases hxa : x = a
        · simp [← hxy, hxa]
        · simp only [firstIsNot, hxb, hxa, if_false] at h
          exact List.mem_cons_of_mem _ (ih h pre post hxs)

/-! ## The claims -/

/-- C1: a failed login is a direct failure path with no partial state.  For every state in
which `handleConnecting` runs with `login` returning `false`, the handler ends with
`connectionState_ = None`, `vpnClient_` and `ipTables_` are exactly what they were, and the
effects of the run are the construction of the web-socket client, the login call, the error
box and the assignment of `None`: no `IPTables`, `TunInterface` or `VpnClient` is created and
neither `VpnClient::start` nor `IPTables::apply` is invoked. -/
theorem login_failure_no_partial_state (s : TrayApp) :
    (handleConnecting false s).connectionState_ = ConnectionState.None ∧
      (handleConnecting false s).vpnClient_ = s.vpnClient_ ∧
      (handleConnecting false s).ipTables_ = s.ipTables_ ∧
      effectsSince s (handleConnecting false s) =
        [Effect.newWebSocketClient
            ⟨s.selectedServer_.address, s.selectedServer_.port, "10.0.1.1", true⟩,
          Effect.webSocketLogin s.selectedServer_.username s.selectedServer_.password false,
          Effect.messageBoxCritical "Connection Error"
            "Failed to connect to the server. Please check your credentials and try again.",
          Effect.assignConnectionState ConnectionState.None] ∧
      Effect.vpnClientStart ∉ effectsSince s (handleConnecting false s) ∧
      Effect.ipTablesApply ∉ effectsSince s (handleConnecting false s) ∧
      (∀ t, Effect.newIPTables t ∉ effectsSince s (handleConnecting false s)) ∧
      (∀ t, Effect.newTunInterface t ∉ effectsSince s (handleConnecting false s)) ∧
      (∀ c, Effect.newVpnClient c ∉ effectsSince s (handleConnecting false s)) := by
  have hs := handleConnecting_false_state s
  have ht := effectsSince_of_trace (handleConnecting_false_trace s)
  refine ⟨hs.1, hs.2.1, hs.2.2, ht, ?_, ?_, ?_, ?_, ?_⟩ <;> simp [ht]

/-- C2: the routing rules are applied only after the transport was started.  In every run of
`handleConnecting`, `IPTables::apply` is among the effects exactly when `login` returned
`true`, and every occurrence of it comes after the login call that returned `true` and after
`VpnClient::start` of the same run. -/
theorem apply_only_after_login_and_start (loginStatus : Bool) (s : TrayApp) :
    (Effect.ipTablesApply ∈ effectsSince s (handleConnecting loginStatus s) ↔
        loginStatus = true) ∧
      OnlyAfter
        (Effect.webSocketLogin s.selectedServer_.username s.selectedServer_.password true)
        Effect.ipTablesApply (effectsSince s (handleConnecting loginStatus s)) ∧
      OnlyAfter Effect.vpnClientStart Effect.ipTablesApply
        (effectsSince s (handleConnecting loginStatus s)) := by
  cases loginStatus
  · have ht := effectsSince_of_trace (handleConnecting_false_trace s)
    refine ⟨by simp [ht], ?_, ?_⟩ <;>
      · apply onlyAfter_of_firstIsNot
        simp [ht, firstIsNot]
  · have ht := effectsSince_of_trace (handleConnecting_true_trace s)
    refine ⟨by simp [ht], ?_, ?_⟩ <;>
      · apply onlyAfter_of_firstIsNot
        simp [ht, firstIsNot]

/-- C3: teardown order.  In each of `onDisconnectFromServer`, `handleDefaultState` and
`handleDisconnecting`, from every state in which both a client and a routing helper are
present, the run starts with `VpnClient::stop` followed by `IPTables::clean`, and every
`IPTables::clean` of the run comes after a `VpnClient::stop`. -/
theorem teardown_stops_client_before_clean (s : TrayApp) (c : VpnClient) (t : IPTables)
    (hv : s.vpnClient_ = some c) (hi : s.ipTables_ = some t) :
    (effectsSince s (onDisconnectFromServer s) =
        [Effect.vpnClientStop, Effect.ipTablesClean,
          Effect.assignConnectionState ConnectionState.None] ∧
      OnlyAfter Effect.vpnClientStop Effect.ipTablesClean
        (effectsSince s (onDisconnectFromServer s))) ∧
    (effectsSince s (handleDefaultState s) = [Effect.vpnClientStop, Effect.ipTablesClean] ∧
      OnlyAfter Effect.vpnClientStop Effect.ipTablesClean
        (effectsSince s (handleDefaultState s))) ∧
    (effectsSince s (handleDisconnecting s) =
        [Effect.vpnClientStop, Effect.ipTablesClean,
          Effect.assignConnectionState ConnectionState.None,
          Effect.emitSignal Signal.defaultState] ∧
      OnlyAfter Effect.vpnClientStop Effect.ipTablesClean
        (effectsSince s (handleDisconnecting s))) := by
  have hr : releaseEffects s = [Effect.vpnClientStop, Effect.ipTablesClean] := by
    simp [releaseEffects, hv, hi]
  have h1 := effectsSince_of_trace (onDisconnectFromServer_trace s)
  have h2 := effectsSince_of_trace (handleDefaultState_trace s)
  have h3 := effectsSince_of_trace (handleDisconnecting_trace s)
  rw [hr] at h1 h2 h3
  refine ⟨⟨by simpa using h1, ?_⟩, ⟨h2, ?_⟩, ⟨by simpa using h3, ?_⟩⟩ <;>
    · apply onlyAfter_of_firstIsNot
      simp [h1, h2, h3, firstIsNot]

/-- Witness of C3 on the connected sample tray. -/
theorem teardown_stops_client_before_clean_witness :
    sampleConnected.vpnClient_ =
        some ⟨⟨"203.0.113.7", 443, "10.0.1.1", true⟩, ⟨"tun0", "10.0.1.1", 30⟩⟩ ∧
      sampleConnected.ipTables_ = some ⟨"eth0", "tun0", "203.0.113.7", "", "10.0.1.1"⟩ ∧
      effectsSince sampleConnected (onDisconnectFromServer sampleConnected) =
        [Effect.vpnClientStop, Effect.ipTablesClean,
          Effect.assignConnectionState ConnectionState.None] :=
  ⟨rfl, rfl, (teardown_stops_client_before_clean sampleConnected _ _ rfl rfl).1.1⟩

theorem assignedStates_append (l₁ l₂ : List Effect) :
    assignedStates (l₁ ++ l₂) = assignedStates l₁ ++ assignedStates l₂ := by
  induction l₁ with
  | nil => rfl
  | cons x xs ih => cases x <;> simp [assignedStates, ih]

theorem assignedStates_releaseEffects (s : TrayApp) : assignedStates (releaseEffects s) = [] := by
  unfold releaseEffects
  cases s.vpnClient_ <;> cases s.ipTables_ <;> rfl

theorem statesTaken_onDisconnectFromServer (s : TrayApp) :
    statesTaken s (onDisconnectFromServer s) = [s.connectionState_, ConnectionState.None] := by
  simp [statesTaken, effectsSince_of_trace (onDisconnectFromServer_trace s),
    assignedStates_append, assignedStates_releaseEffects, assignedStates]

theorem statesTaken_handleDisconnecting (s : TrayApp) :
    statesTaken s (handleDisconnecting s) = [s.connectionState_, ConnectionState.None] := by
  simp [statesTaken, effectsSince_of_trace (handleDisconnecting_trace s),
    assignedStates_append, assignedStates_releaseEffects, assignedStates]

/-- C4 on the failing input: on the connected sample tray a stop request assigns
`connectionState_` once, the value `None`, for `onDisconnectFromServer` and for
`handleDisconnecting` alike; the values taken are `Connected, None` and not
`Connected, Disconnecting, None` as the state machine requires. -/
theorem stop_request_skips_disconnecting :
    sampleConnected.connectionState_ = ConnectionState.Connected ∧
      statesTaken sampleConnected (onDisconnectFromServer sampleConnected) =
        [ConnectionState.Connected, ConnectionState.None] ∧
      statesTaken sampleConnected (handleDisconnecting sampleConnected) =
        [ConnectionState.Connected, ConnectionState.None] ∧
      statesTaken sampleConnected (onDisconnectFromServer sampleConnected) ≠
        [ConnectionState.Connected, ConnectionState.Disconnecting, ConnectionState.None] ∧
      statesTaken sampleConnected (handleDisconnecting sampleConnected) ≠
        [ConnectionState.Connected, ConnectionState.Disconnecting, ConnectionState.None] := by
  have hc : sampleConnected.connectionState_ = ConnectionState.Connected := rfl
  refine ⟨hc, ?_, ?_, ?_, ?_⟩
  · rw [statesTaken_onDisconnectFromServer, hc]
  · rw [statesTaken_handleDisconnecting, hc]
  · rw [statesTaken_onDisconnectFromServer]; simp
  · rw [statesTaken_handleDisconnecting]; simp

/-- C5: `Disconnected` is always reachable.  From every state, `onDisconnectFromServer` and
`handleDisconnecting` (the slot `handleDefaultState` it triggers included) each end with
`connectionState_ = None`, no client and no routing helper, having invoked `VpnClient::stop`
once if a client was present and not at all otherwise, and `IPTables::clean` once if a helper
was present and not at all otherwise. -/
theorem disconnect_reaches_none_and_releases_once (s : TrayApp) :
    ((onDisconnectFromServer s).connectionState_ = ConnectionState.None ∧
      (onDisconnectFromServer s).vpnClient_ = none ∧
      (onDisconnectFromServer s).ipTables_ = none ∧
      (effectsSince s (onDisconnectFromServer s)).count Effect.vpnClientStop =
        (if s.vpnClient_.isSome then 1 else 0) ∧
      (effectsSince s (onDisconnectFromServer s)).count Effect.ipTablesClean =
        (if s.ipTables_.isSome then 1 else 0)) ∧
    ((handleDisconnecting s).connectionState_ = ConnectionState.None ∧
      (handleDisconnecting s).vpnClient_ = none ∧
      (handleDisconnecting s).ipTables_ = none ∧
      (effectsSince s (handleDisconnecting s)).count Effect.vpnClientStop =
        (if s.vpnClient_.isSome then 1 else 0) ∧
      (effectsSince s (handleDisconnecting s)).count Effect.ipTablesClean =
        (if s.ipTables_.isSome then 1 else 0)) := by
  rw [effectsSince_of_trace (onDisconnectFromServer_trace s),
    effectsSince_of_trace (handleDisconnecting_trace s)]
  refine ⟨⟨by simp [onDisconnectFromServer], by simp [onDisconnectFromServer],
    by simp [onDisconnectFromServer], ?_, ?_⟩,
    ⟨by simp [handleDisconnecting, handleDefaultState],
      by simp [handleDisconnecting, handleDefaultState],
      by simp [handleDisconnecting, handleDefaultState], ?_, ?_⟩⟩ <;>
    · unfold releaseEffects
      cases s.vpnClient_ <;> cases s.ipTables_ <;> simp

theorem onConnectToServerMenu_selectedServer (server : ServerConnectionInformation)
    (s : TrayApp) : (onConnectToServerMenu server s).selectedServer_ = server := by
  simp [onConnectToServerMenu]

theorem onConnectToServerMenu_connectionState (server : ServerConnectionInformation)
    (s : TrayApp) :
    (onConnectToServerMenu server s).connectionState_ = ConnectionState.Connecting := by
  simp [onConnectToServerMenu]

theorem onConnectToServerMenu_trace (server : ServerConnectionInformation) (s : TrayApp) :
    (onConnectToServerMenu server s).trace_ =
      s.trace_ ++ [Effect.assignConnectionState ConnectionState.Connecting] := by
  simp [onConnectToServerMenu]

theorem onConnectToServerMenu_resources (server : ServerConnectionInformation) (s : TrayApp) :
    (onConnectToServerMenu server s).vpnClient_ = s.vpnClient_ ∧
      (onConnectToServerMenu server s).ipTables_ = s.ipTables_ := by
  simp [onConnectToServerMenu]

/-- C6: the successful connect path.  For every state (in particular every state with
`connectionState_ = None`) and every server (in particular every configured one), a connect
request records the server as `selectedServer_` and sets `connectionState_ = Connecting`
before it emits `connecting`; the slot `handleConnecting`, run from any state with `login`
returning `true`, ends with `connectionState_ = Connected`, a client and a routing helper
present and the signal `connected` emitted; and so does the whole connect request, whose
selected server is still the requested one. -/
theorem connect_request_reaches_connected (server : ServerConnectionInformation)
    (s : TrayApp) :
    ((onConnectToServerMenu server s).selectedServer_ = server ∧
      (onConnectToServerMenu server s).connectionState_ = ConnectionState.Connecting) ∧
    ((handleConnecting true s).connectionState_ = ConnectionState.Connected ∧
      (handleConnecting true s).vpnClient_.isSome = true ∧
      (handleConnecting true s).ipTables_.isSome = true ∧
      Effect.emitSignal Signal.connected ∈ effectsSince s (handleConnecting true s)) ∧
    ((onConnectToServer true server s).selectedServer_ = server ∧
      (onConnectToServer true server s).connectionState_ = ConnectionState.Connected ∧
      (onConnectToServer true server s).vpnClient_.isSome = true ∧
      (onConnectToServer true server s).ipTables_.isSome = true ∧
      statesTaken s (onConnectToServer true server s) =
        [s.connectionState_, ConnectionState.Connecting, ConnectionState.Connected,
          ConnectionState.Connected] ∧
      Effect.emitSignal Signal.connected ∈ effectsSince s (onConnectToServer true server s)) := by
  have hc := handleConnecting_true_state s
  have hc2 := handleConnecting_true_state
    (record (Effect.emitSignal Signal.connecting) (onConnectToServerMenu server s))
  have ht : (onConnectToServer true server s).trace_ = s.trace_ ++
      ([Effect.assignConnectionState ConnectionState.Connecting,
        Effect.emitSignal Signal.connecting] ++
      [Effect.newWebSocketClient ⟨server.address, server.port, "10.0.1.1", true⟩,
        Effect.webSocketLogin server.username server.password true,
        Effect.newIPTables (connectedIPTables (onConnectToServerMenu server s)),
        Effect.newTunInterface ⟨"tun0", "10.0.1.1", 30⟩,
        Effect.newVpnClient (connectedVpnClient (onConnectToServerMenu server s)),
        Effect.vpnClientStart,
        Effect.sleepSeconds 2,
        Effect.ipTablesApply,
        Effect.assignConnectionState ConnectionState.Connected,
        Effect.emitSignal Signal.connected,
        Effect.assignConnectionState ConnectionState.Connected]) := by
    unfold onConnectToServer
    simp only [handleConnecting_true_trace, record_trace, record_selectedServer,
      onConnectToServerMenu_trace, onConnectToServerMenu_selectedServer]
    simp [connectedIPTables, connectedVpnClient, onConnectToServerMenu_selectedServer]
  refine ⟨⟨onConnectToServerMenu_selectedServer server s,
    onConnectToServerMenu_connectionState server s⟩,
    ⟨hc.1, by simp [hc.2.1], by simp [hc.2.2], ?_⟩, ⟨?_, hc2.1, ?_, ?_, ?_, ?_⟩⟩
  · simp [effectsSince_of_trace (handleConnecting_true_trace s)]
  · simp [onConnectToServer, handleConnecting, handleConnected, onConnectToServerMenu]
  · simp [onConnectToServer, hc2.2.1]
  · simp [onConnectToServer, hc2.2.2]
  · simp [statesTaken, effectsSince_of_trace ht, assignedStates]
  · simp [effectsSince_of_trace ht]

/-- C7: the sentinel `"auto"` becomes the empty string.  For every state, with `g` the
configured gateway and `n` the configured network interface, a successful `handleConnecting`
builds one `IPTables` helper and keeps it in `ipTables_`; its gateway argument is `""` when
`g` is exactly `"auto"` and `g` otherwise, its interface argument is `""` when `n` is exactly
`"auto"` and `n` otherwise; each depends on its own setting only. -/
theorem auto_sentinel_becomes_empty (s : TrayApp) :
    ∃ t : IPTables,
      (handleConnecting true s).ipTables_ = some t ∧
      Effect.newIPTables t ∈ effectsSince s (handleConnecting true s) ∧
      (∀ u, Effect.newIPTables u ∈ effectsSince s (handleConnecting true s) → u = t) ∧
      (s.serverModel_.gatewayIp = "auto" → t.gatewayIP = "") ∧
      (s.serverModel_.gatewayIp ≠ "auto" → t.gatewayIP = s.serverModel_.gatewayIp) ∧
      (s.serverModel_.networkInterface = "auto" → t.networkInterface = "") ∧
      (s.serverModel_.networkInterface ≠ "auto" →
        t.networkInterface = s.serverModel_.networkInterface) := by
  refine ⟨connectedIPTables s, (handleConnecting_true_state s).2.2, ?_, ?_, ?_, ?_, ?_, ?_⟩
  · simp [effectsSince_of_trace (handleConnecting_true_trace s)]
  · intro u hu
    simpa [effectsSince_of_trace (handleConnecting_true_trace s)] using hu
  · intro h; simp [connectedIPTables, h]
  · intro h; simp [connectedIPTables, h]
  · intro h; simp [connectedIPTables, h]
  · intro h; simp [connectedIPTables, h]

/-- Witness of C7: with gateway `"auto"` and interface `"eth0"` the helper gets `""` and
`"eth0"`. -/
theorem auto_sentinel_becomes_empty_witness :
    sampleApp.serverModel_.gatewayIp = "auto" ∧
      sampleApp.serverModel_.networkInterface = "eth0" ∧
      ∃ t : IPTables, (handleConnecting true sampleApp).ipTables_ = some t ∧
        t.gatewayIP = "" ∧ t.networkInterface = "eth0" := by
  obtain ⟨t, h1, _, _, h4, _, _, h7⟩ := auto_sentinel_becomes_empty sampleApp
  exact ⟨rfl, rfl, t, h1, h4 rfl, h7 (by decide)⟩

/-- C8: the timer handler reads the rates only while connected.  For every state and
whichever order the compiler reads the two rates in, `updateSpeedWidget` calls
`getReceiveRate` and `getSendRate` once each and then passes the results to the widget as
(receive rate, send rate) exactly when a client is present, the widget is present and
`connectionState_ = Connected`; in every other state it returns the state as it was, with no
call made; and in no state does it change anything but the trace of calls. -/
theorem speed_widget_reads_rates_only_when_connected (sendRateFirst : Bool)
    (receiveRate sendRate : Nat) (s : TrayApp) :
    ((s.vpnClient_.isSome = true ∧ s.speedWidget_.isSome = true ∧
          s.connectionState_ = ConnectionState.Connected) ↔
        (effectsSince s (updateSpeedWidget sendRateFirst receiveRate sendRate s) =
            [Effect.getReceiveRate, Effect.getSendRate,
              Effect.updateSpeed receiveRate sendRate] ∨
          effectsSince s (updateSpeedWidget sendRateFirst receiveRate sendRate s) =
            [Effect.getSendRate, Effect.getReceiveRate,
              Effect.updateSpeed receiveRate sendRate])) ∧
      (¬ (s.vpnClient_.isSome = true ∧ s.speedWidget_.isSome = true ∧
          s.connectionState_ = ConnectionState.Connected) ↔
        updateSpeedWidget sendRateFirst receiveRate sendRate s = s) ∧
      (¬ (s.vpnClient_.isSome = true ∧ s.speedWidget_.isSome = true ∧
          s.connectionState_ = ConnectionState.Connected) ↔
        effectsSince s (updateSpeedWidget sendRateFirst receiveRate sendRate s) = []) ∧
      updateSpeedWidget sendRateFirst receiveRate sendRate s =
        { s with
          trace_ := s.trace_ ++
            effectsSince s (updateSpeedWidget sendRateFirst receiveRate sendRate s) } := by
  by_cases hc : s.vpnClient_.isSome = true ∧ s.speedWidget_.isSome = true ∧
      s.connectionState_ = ConnectionState.Connected
  · have hr : updateSpeedWidget sendRateFirst receiveRate sendRate s =
        { s with trace_ := s.trace_ ++ rateReads sendRateFirst ++
          [Effect.updateSpeed receiveRate sendRate] } := by
      cases sendRateFirst <;> simp [updateSpeedWidget, hc, record, rateReads]
    have ht : effectsSince s (updateSpeedWidget sendRateFirst receiveRate sendRate s) =
        rateReads sendRateFirst ++ [Effect.updateSpeed receiveRate sendRate] :=
      effectsSince_of_trace (by rw [hr, List.append_assoc])
    refine ⟨⟨fun _ => ?_, fun _ => hc⟩, ⟨fun h => absurd hc h, fun h => ?_⟩,
      ⟨fun h => absurd hc h, fun h => ?_⟩, ?_⟩
    · rw [ht]
      cases sendRateFirst
      · exact Or.inl rfl
      · exact Or.inr rfl
    · have h2 := congrArg TrayApp.trace_ h
      rw [hr] at h2
      simp at h2
    · rw [ht] at h; simp at h
    · rw [ht, ← List.append_assoc, ← hr]
  · have hr : updateSpeedWidget sendRateFirst receiveRate sendRate s = s := by
      unfold updateSpeedWidget
      rw [if_neg]
      simpa [and_assoc] using hc
    have ht : effectsSince s (updateSpeedWidget sendRateFirst receiveRate sendRate s) = [] := by
      rw [hr]; simp [effectsSince]
    refine ⟨⟨fun h => absurd h hc, fun h => ?_⟩, ⟨fun _ => hr, fun _ => hc⟩,
      ⟨fun _ => ht, fun _ => hc⟩, ?_⟩
    · rw [ht] at h; simp at h
    · rw [ht, hr]; simp

theorem resourceInvariant_of_released (s : TrayApp)
    (hc : s.connectionState_ = ConnectionState.None) (hv : s.vpnClient_ = none)
    (hi : s.ipTables_ = none) : ResourceInvariant s := by
  simp [ResourceInvariant, hc, hv, hi]

theorem resourceInvariant_of_connected (s : TrayApp)
    (hc : s.connectionState_ = ConnectionState.Connected) (hv : s.vpnClient_.isSome = true)
    (hi : s.ipTables_.isSome = true) : ResourceInvariant s := by
  simp [ResourceInvariant, hc, hv, hi]

theorem resourceInvariant_congr (s r : TrayApp) (hinv : ResourceInvariant s)
    (hc : r.connectionState_ = s.connectionState_) (hv : r.vpnClient_ = s.vpnClient_)
    (hi : r.ipTables_ = s.ipTables_) : ResourceInvariant r := by
  simpa [ResourceInvariant, hc, hv, hi] using hinv

theorem updateSpeedWidget_frame (sendRateFirst : Bool) (receiveRate sendRate : Nat)
    (s : TrayApp) :
    (updateSpeedWidget sendRateFirst receiveRate sendRate s).connectionState_ =
        s.connectionState_ ∧
      (updateSpeedWidget sendRateFirst receiveRate sendRate s).vpnClient_ = s.vpnClient_ ∧
      (updateSpeedWidget sendRateFirst receiveRate sendRate s).ipTables_ = s.ipTables_ := by
  unfold updateSpeedWidget
  cases sendRateFirst <;> split <;> simp

/-- One handler keeps the invariant, when a connect request finds the state `None` and a
stand-alone `handleConnected` finds the state `Connected`. -/
theorem resourceInvariant_step (h : Handler) (s : TrayApp) (hinv : ResourceInvariant s)
    (hg : connectOnlyWhenNone [h] s = true)
    (hc : connectedSlotOnlyWhenConnected [h] s = true) :
    ResourceInvariant (runHandler h s) := by
  cases h with
  | onConnectToServer server loginStatus =>
    have hnone : s.connectionState_ = ConnectionState.None := by
      simpa [connectOnlyWhenNone] using hg
    have hres := onConnectToServerMenu_resources server s
    cases loginStatus
    · have hf := handleConnecting_false_state
        (record (Effect.emitSignal Signal.connecting) (onConnectToServerMenu server s))
      obtain ⟨h1, h2⟩ := hinv
      have hi : s.ipTables_ = none := by
        cases hx : s.ipTables_ with
        | none => rfl
        | some t =>
          have := h2.mp (by simp [hx])
          rw [hnone] at this
          cases this
      have hv : s.vpnClient_ = none := by
        cases hx : s.vpnClient_ with
        | none => rfl
        | some c =>
          have := h1.mp (by simp [hx])
          simp [hi] at this
      apply resourceInvariant_of_released
      · exact hf.1
      · have := hf.2.1
        simp only [record_vpnClient, hres.1, hv] at this
        exact this
      · have := hf.2.2
        simp only [record_ipTables, hres.2, hi] at this
        exact this
    · have ht := handleConnecting_true_state
        (record (Effect.emitSignal Signal.connecting) (onConnectToServerMenu server s))
      apply resourceInvariant_of_connected
      · exact ht.1
      · show (handleConnecting true _).vpnClient_.isSome = true
        rw [ht.2.1]; rfl
      · show (handleConnecting true _).ipTables_.isSome = true
        rw [ht.2.2]; rfl
  | onDisconnectFromServer =>
    apply resourceInvariant_of_released <;> simp [runHandler, onDisconnectFromServer]
  | handleDisconnecting =>
    apply resourceInvariant_of_released <;>
      simp [runHandler, handleDisconnecting, handleDefaultState]
  | handleConnected =>
    have hcon : s.connectionState_ = ConnectionState.Connected := by
      simpa [connectedSlotOnlyWhenConnected] using hc
    apply resourceInvariant_congr s _ hinv <;> simp [runHandler, handleConnected, hcon]
  | updateSpeedWidget o rx tx =>
    have hf := updateSpeedWidget_frame o rx tx s
    exact resourceInvariant_congr s _ hinv hf.1 hf.2.1 hf.2.2
  | updateTrayMenu =>
    apply resourceInvariant_congr s _ hinv <;> simp [runHandler]

theorem resourceInvariant_runAll_take (hs : List Handler) :
    ∀ (n : Nat) (s : TrayApp), ResourceInvariant s → connectOnlyWhenNone hs s = true →
      connectedSlotOnlyWhenConnected hs s = true →
      ResourceInvariant (runAll (hs.take n) s) := by
  induction hs with
  | nil => intro n s hinv _ _; simpa [runAll] using hinv
  | cons h hs ih =>
    intro n s hinv hg hc
    cases n with
    | zero => simpa [runAll] using hinv
    | succ n =>
      simp only [List.take_succ_cons, runAll]
      simp only [connectOnlyWhenNone, Bool.and_eq_true] at hg
      simp only [connectedSlotOnlyWhenConnected, Bool.and_eq_true] at hc
      apply ih n _ _ hg.2 hc.2
      apply resourceInvariant_step h s hinv
      · simp only [connectOnlyWhenNone, Bool.and_eq_true, and_true]; exact hg.1
      · simp only [connectedSlotOnlyWhenConnected, Bool.and_eq_true, and_true]; exact hc.1

/-- C9, as stated, fails: from the freshly constructed sample tray (state `None`, no client,
no routing helper) the one-handler run `handleConnected` contains no connect request at all,
yet it ends with `connectionState_ = Connected` while no client and no helper exist. -/
theorem resource_invariant_broken_by_connected_slot :
    sampleApp.connectionState_ = ConnectionState.None ∧
      sampleApp.vpnClient_ = none ∧ sampleApp.ipTables_ = none ∧
      connectOnlyWhenNone [Handler.handleConnected] sampleApp = true ∧
      (runAll [Handler.handleConnected] sampleApp).connectionState_ =
        ConnectionState.Connected ∧
      (runAll [Handler.handleConnected] sampleApp).vpnClient_ = none ∧
      (runAll [Handler.handleConnected] sampleApp).ipTables_ = none ∧
      ¬ ResourceInvariant (runAll [Handler.handleConnected] sampleApp) := by
  refine ⟨rfl, rfl, rfl, rfl, rfl, rfl, rfl, ?_⟩
  intro h
  have h2 := h.2.mpr rfl
  exact absurd h2 (by decide)

/-- C9, amended: from every initial state (`connectionState_ = None`, no client, no routing
helper) and for every finite sequence of handler invocations in which a connect request is
only issued while `connectionState_ = None` and the slot `handleConnected` is only run on its
own while `connectionState_ = Connected`, after each handler returns a client is present if
and only if a routing helper is present if and only if `connectionState_ = Connected`. -/
theorem resource_invariant_along_guarded_runs (s0 : TrayApp) (hs : List Handler)
    (h0 : s0.connectionState_ = ConnectionState.None) (hv : s0.vpnClient_ = none)
    (hi : s0.ipTables_ = none) (hg : connectOnlyWhenNone hs s0 = true)
    (hc : connectedSlotOnlyWhenConnected hs s0 = true) :
    ∀ n, ResourceInvariant (runAll (hs.take n) s0) := fun n =>
  resourceInvariant_runAll_take hs n s0 (resourceInvariant_of_released s0 h0 hv hi) hg hc

/-- Witness of the amended C9 on `sampleRun`. -/
theorem resource_invariant_along_guarded_runs_witness :
    connectOnlyWhenNone sampleRun sampleApp = true ∧
      connectedSlotOnlyWhenConnected sampleRun sampleApp = true ∧
      ∀ n, ResourceInvariant (runAll (sampleRun.take n) sampleApp) :=
  ⟨rfl, rfl, resource_invariant_along_guarded_runs sampleApp sampleRun rfl rfl rfl rfl rfl⟩

/-- From any state, after a connect request whose login fails, the next connect request
finds the entry `connectingAction_` hidden and leaves it hidden. -/
theorem connectingAction_hidden_after_failed_login (s : TrayApp)
    (server next : ServerConnectionInformation) :
    (onConnectToServerMenu next (onConnectToServer false server s)).connectionState_ =
        ConnectionState.Connecting ∧
      ∃ a, (onConnectToServerMenu next (onConnectToServer false server s)).connectingAction_ =
          some a ∧ a.visible = false := by
  refine ⟨onConnectToServerMenu_connectionState _ _, ?_⟩
  rcases s with ⟨_, _, _, _, _, ca, da, swa, _, _, cs, _, _, _, _, _⟩
  cases ca <;> cases da <;> cases swa <;> exact ⟨_, rfl, rfl⟩

/-- C10 on the failing input: on the sample tray the first connect request shows the entry
(`"Connecting..."`, visible); after that login fails (or after it succeeds and the user
disconnects) the second connect request returns from `updateTrayMenu` in state `Connecting`
with the entry still carrying `"Connecting..."` but hidden. -/
theorem connecting_indicator_hidden_on_second_attempt :
    (onConnectToServerMenu sampleServer sampleApp).connectingAction_ =
        some ⟨ActionText.literal "Connecting...", true, true⟩ ∧
      (onConnectToServerMenu sampleServer
          (onConnectToServer false sampleServer sampleApp)).connectionState_ =
        ConnectionState.Connecting ∧
      (onConnectToServerMenu sampleServer
          (onConnectToServer false sampleServer sampleApp)).connectingAction_ =
        some ⟨ActionText.literal "Connecting...", false, true⟩ ∧
      (onConnectToServerMenu sampleServer
          (onDisconnectFromServer sampleConnected)).connectionState_ =
        ConnectionState.Connecting ∧
      (onConnectToServerMenu sampleServer
          (onDisconnectFromServer sampleConnected)).connectingAction_ =
        some ⟨ActionText.literal "Connecting...", false, true⟩ :=
  ⟨rfl, rfl, rfl, rfl, rfl⟩

end Fptn
